import Mathlib

/-
Shallow embedding of the core of `src/asteroids.py` (the pymunk/pyglet
asteroids game).  Python dicts over object keys are embedded as association
lists (object identity becomes a natural-number id), Python lists as Lean
lists, floats as rationals, and raised exceptions as explicit error values
threaded next to the mutated state (a raise keeps all mutations performed
before it, exactly as in Python).
-/

set_option maxHeartbeats 1000000

/-- Python exception classes that the embedded code can raise. -/
inductive Err where
  | keyError
  | valueError
  | assertionError
  | attributeError
  | runtimeError
deriving DecidableEq

/-- Association-list lookup: the value stored at the first occurrence of the
key, mirroring a Python dict read `d[k]` (keys are kept unique by `ainsert`
and `adel`). -/
def alookup {α β : Type} [DecidableEq α] : List (α × β) → α → Option β
  | [], _ => none
  | (a, b) :: l, k => if a = k then some b else alookup l k

/-- Association-list write `d[k] = v`: overwrite in place if the key exists
(Python dicts keep the original insertion position), else append at the end
(Python dicts append new keys). -/
def ainsert {α β : Type} [DecidableEq α] : List (α × β) → α → β → List (α × β)
  | [], k, v => [(k, v)]
  | (a, b) :: l, k, v => if a = k then (k, v) :: l else (a, b) :: ainsert l k v

/-- Association-list key deletion `del d[k]`: removes the first entry with the
key (the only one, given unique keys). -/
def adel {α β : Type} [DecidableEq α] : List (α × β) → α → List (α × β)
  | [], _ => []
  | (a, b) :: l, k => if a = k then l else (a, b) :: adel l k

/-- Python `list.remove(a)` minus the raise: drops the first element equal to
`a`.  Callers check membership first and raise ValueError themselves. -/
def lremove {α : Type} [DecidableEq α] : List α → α → List α
  | [], _ => []
  | x :: l, a => if x = a then l else x :: lremove l a

theorem alookup_ainsert_self {α β : Type} [DecidableEq α] (l : List (α × β)) (k : α) (v : β) :
    alookup (ainsert l k v) k = some v := by
  induction l with
  | nil => simp [ainsert, alookup]
  | cons p l ih =>
    obtain ⟨a, b⟩ := p
    by_cases h : a = k
    · simp [ainsert, h, alookup]
    · simp [ainsert, h, alookup, ih]

theorem alookup_eq_none_of_not_mem_keys {α β : Type} [DecidableEq α]
    (l : List (α × β)) (k : α) (h : k ∉ l.map Prod.fst) : alookup l k = none := by
  induction l with
  | nil => rfl
  | cons p l ih =>
    obtain ⟨a, b⟩ := p
    simp only [List.map_cons, List.mem_cons] at h
    push_neg at h
    have ha : a ≠ k := fun hk => h.1 hk.symm
    simp [alookup, ha, ih h.2]

theorem alookup_adel_ainsert {α β : Type} [DecidableEq α]
    (l : List (α × β)) (k : α) (v : β) (hnd : (l.map Prod.fst).Nodup) :
    alookup (adel (ainsert l k v) k) k = none := by
  induction l with
  | nil => simp [ainsert, adel, alookup]
  | cons p l ih =>
    obtain ⟨a, b⟩ := p
    simp only [List.map_cons, List.nodup_cons] at hnd
    by_cases h : a = k
    · subst h
      simp only [ainsert, if_pos rfl, adel, if_pos rfl]
      exact alookup_eq_none_of_not_mem_keys l a hnd.1
    · simp [ainsert, h, adel, alookup, ih hnd.2]

theorem alookup_mem {α β : Type} [DecidableEq α]
    (l : List (α × β)) (k : α) (v : β) (h : alookup l k = some v) : (k, v) ∈ l := by
  induction l with
  | nil => simp [alookup] at h
  | cons p l ih =>
    obtain ⟨a, b⟩ := p
    by_cases ha : a = k
    · subst ha
      simp [alookup] at h
      subst h
      exact List.mem_cons_self _ _
    · simp only [alookup, if_neg ha] at h
      exact List.mem_cons_of_mem _ (ih h)

theorem alookup_append_single {α β : Type} [DecidableEq α]
    (l : List (α × β)) (k : α) (v : β) (h : alookup l k = none) :
    alookup (l ++ [(k, v)]) k = some v := by
  induction l with
  | nil => simp [alookup]
  | cons p l ih =>
    obtain ⟨a, b⟩ := p
    by_cases ha : a = k
    · simp [alookup, ha] at h
    · simp only [alookup, if_neg ha] at h
      simp [alookup, ha, ih h]

theorem snd_nodup_inj {α β : Type} (l : List (α × β))
    (hnd : (l.map Prod.snd).Nodup) (k1 k2 : α) (t1 t2 : β)
    (h1 : (k1, t1) ∈ l) (h2 : (k2, t2) ∈ l) (hne : k1 ≠ k2) : t1 ≠ t2 := by
  induction l with
  | nil => simp at h1
  | cons p l ih =>
    obtain ⟨a, b⟩ := p
    simp only [List.map_cons, List.nodup_cons] at hnd
    rcases List.mem_cons.mp h1 with e1 | m1
    · rcases List.mem_cons.mp h2 with e2 | m2
      · exact absurd (by rw [Prod.mk.injEq] at e1 e2; rw [e1.1, e2.1]) hne
      · intro ht
        apply hnd.1
        rw [Prod.mk.injEq] at e1
        rw [← e1.2, ht]
        exact List.mem_map.mpr ⟨(k2, t2), m2, rfl⟩
    · rcases List.mem_cons.mp h2 with e2 | m2
      · intro ht
        apply hnd.1
        rw [Prod.mk.injEq] at e2
        rw [← e2.2, ← ht]
        exact List.mem_map.mpr ⟨(k1, t1), m1, rfl⟩
      · exact ih hnd.2 m1 m2

theorem lremove_not_mem {α : Type} [DecidableEq α] (l : List α) (a : α)
    (hnd : l.Nodup) : a ∉ lremove l a := by
  induction l with
  | nil => simp [lremove]
  | cons x l ih =>
    simp only [List.nodup_cons] at hnd
    by_cases h : x = a
    · subst h
      simp [lremove, hnd.1]
    · simp only [lremove, if_neg h, List.mem_cons]
      push_neg
      exact ⟨fun hx => h hx.symm, ih hnd.2⟩

/-
Collision-type registration (`World.register_model`, `Model.collision_type`).

`World._collision_handlers` is a dict from model class to its small-integer
collision type; `register_model` also stores the assigned tag on the class as
the class attribute `collision_type`, shadowing the `Model.collision_type`
property for registered classes.  Model classes are embedded as an arbitrary
type `κ` with decidable equality (Python classes compare by identity).
-/

/-- State of `World._collision_handlers` together with the per-class
`collision_type` class attributes that `register_model` assigns. -/
structure RegSt (κ : Type) where
  handlers : List (κ × Nat)
  classTags : List (κ × Nat)
deriving DecidableEq

/-- The registry of a freshly constructed `World`: no model registered. -/
def regEmpty {κ : Type} : RegSt κ := ⟨[], []⟩

/-- Embeds `World.register_model(model_type)`: if the class is not yet a key of
`_collision_handlers`, insert it with tag `len(handlers)+1` and set the class
attribute `collision_type` to `len(handlers)` as read after the insertion,
which is the same value `len(before)+1`. -/
def registerModel {κ : Type} [DecidableEq κ] (k : κ) (r : RegSt κ) : RegSt κ :=
  match alookup r.handlers k with
  | some _ => r
  | none =>
    { handlers := r.handlers ++ [(k, r.handlers.length + 1)],
      classTags := ainsert r.classTags k (r.handlers.length + 1) }

/-- A sequence of `register_model` calls starting from a fresh `World`. -/
def regFold {κ : Type} [DecidableEq κ] (ks : List κ) : RegSt κ :=
  ks.foldl (fun r k => registerModel k r) regEmpty

/-- Registry invariant: the tags stored in `_collision_handlers`, in insertion
order, are exactly `1, 2, ..., len`. -/
def RinV {κ : Type} (r : RegSt κ) : Prop :=
  r.handlers.map Prod.snd = (List.range r.handlers.length).map (fun n => n + 1)

theorem rinV_empty {κ : Type} : RinV (regEmpty : RegSt κ) := rfl

theorem rinV_register {κ : Type} [DecidableEq κ] (k : κ) (r : RegSt κ)
    (h : RinV r) : RinV (registerModel k r) := by
  unfold registerModel
  cases hl : alookup r.handlers k with
  | some t => exact h
  | none =>
    unfold RinV at h ⊢
    simp only [List.map_append, List.length_append, List.map_cons, List.map_nil, h,
      List.length_map, List.length_range, List.range_succ, List.length_cons,
      List.length_nil]

theorem rinV_fold_aux {κ : Type} [DecidableEq κ] (ks : List κ) :
    ∀ r : RegSt κ, RinV r → RinV (ks.foldl (fun r k => registerModel k r) r) := by
  induction ks with
  | nil => exact fun r h => h
  | cons k ks ih =>
    intro r h
    exact ih _ (rinV_register k r h)

theorem rinV_fold {κ : Type} [DecidableEq κ] (ks : List κ) : RinV (regFold ks) :=
  rinV_fold_aux ks regEmpty rinV_empty

theorem rinV_snd_nodup {κ : Type} (r : RegSt κ) (h : RinV r) :
    (r.handlers.map Prod.snd).Nodup := by
  rw [h]
  exact (List.nodup_range _).map (fun a b hab => by omega)

/-- Claim C2: collision-type registration is idempotent and injective.  Over
any sequence of `register_model` calls from a fresh world: two distinct
registered kinds carry distinct tags; re-registering a registered kind leaves
the registry unchanged (so it keeps its original tag); and a kind not yet
registered receives the tag `len(registry) + 1` on first registration. -/
theorem C2_thm {κ : Type} [DecidableEq κ] (ks : List κ) (k1 k2 k3 k4 : κ)
    (t1 t2 t3 : Nat)
    (hne : k1 ≠ k2)
    (h1 : alookup (regFold ks).handlers k1 = some t1)
    (h2 : alookup (regFold ks).handlers k2 = some t2)
    (h3 : alookup (regFold ks).handlers k3 = some t3)
    (h4 : alookup (regFold ks).handlers k4 = none) :
    t1 ≠ t2
    ∧ registerModel k3 (regFold ks) = regFold ks
    ∧ alookup (registerModel k4 (regFold ks)).handlers k4
        = some ((regFold ks).handlers.length + 1) := by
  refine ⟨?_, ?_, ?_⟩
  · exact snd_nodup_inj _ (rinV_snd_nodup _ (rinV_fold ks)) k1 k2 t1 t2
      (alookup_mem _ _ _ h1) (alookup_mem _ _ _ h2) hne
  · unfold registerModel
    rw [h3]
  · unfold registerModel
    rw [h4]
    exact alookup_append_single _ _ _ h4

/-- Witness for C2 at the registration order of `main` (`Asteroid` then
`Bullet`), with `Spaceship` still unregistered. -/
theorem C2_witness :
    ((0 : Nat) ≠ 1
      ∧ alookup (regFold [(0 : Nat), 1]).handlers 0 = some 1
      ∧ alookup (regFold [(0 : Nat), 1]).handlers 1 = some 2
      ∧ alookup (regFold [(0 : Nat), 1]).handlers 2 = none)
    ∧ ((1 : Nat) ≠ 2
      ∧ registerModel 0 (regFold [(0 : Nat), 1]) = regFold [(0 : Nat), 1]
      ∧ alookup (registerModel 2 (regFold [(0 : Nat), 1])).handlers 2
          = some ((regFold [(0 : Nat), 1]).handlers.length + 1)) :=
  ⟨⟨by decide, by decide, by decide, by decide⟩,
    C2_thm [0, 1] 0 1 0 2 1 2 1 (by decide) (by decide) (by decide) (by decide)
      (by decide)⟩

/-
Entity kinds and entity construction (`Model.collision_type`,
`Spaceship.__init__` / `Bullet.__init__` / `Asteroid.__init__`).

The constructors all run `self._shape.collision_type = self.collision_type`.
For a registered class, `self.collision_type` resolves to the class attribute
set by `register_model`.  For an unregistered class it falls through to the
`Model.collision_type` property, whose guard reads the instance attribute
`self._collision_type` — an attribute that no code in the repository ever
assigns, so the read itself raises AttributeError and the property's
`RuntimeError("Model has not been registered with World")` is unreachable.
-/

/-- The three concrete model classes of the game. -/
inductive Kind where
  | ship
  | bullet
  | asteroid
deriving DecidableEq

/-- Body of the `Model.collision_type` property, as a function of the instance
attribute `self._collision_type`: `none` means the attribute does not exist
(its read raises AttributeError); a held zero would be falsy and raise the
RuntimeError of the guard. -/
def modelCollisionTypeProp (attr : Option Nat) : Except Err Nat :=
  match attr with
  | none => Except.error Err.attributeError
  | some v => if v = 0 then Except.error Err.runtimeError else Except.ok v

/-- Reading `self.collision_type` on an entity of class `k`: the class
attribute written by `register_model` shadows the `Model` property; if the
class was never registered the property runs on the never-assigned instance
attribute. -/
def entityCollisionType (r : RegSt Kind) (k : Kind) : Except Err Nat :=
  match alookup r.classTags k with
  | some t => Except.ok t
  | none => modelCollisionTypeProp none

/-- The part of a freshly constructed model that the claims are about: its
kind and the collision type stamped on its pymunk shape. -/
structure BuiltModel where
  kind : Kind
  shapeColl : Nat
deriving DecidableEq

/-- Constructor body common to `Spaceship`, `Bullet` and `Asteroid`: the
moment/body/shape creation always succeeds, then
`self._shape.collision_type = self.collision_type` either stamps the shape or
raises. -/
def constructModel (r : RegSt Kind) (k : Kind) : Except Err BuiltModel :=
  match entityCollisionType r k with
  | Except.ok t => Except.ok { kind := k, shapeColl := t }
  | Except.error er => Except.error er

/-- The registry as set up by `main`: `register_model(Asteroid)`, then
`Bullet`, then `Spaceship`. -/
def regMain : RegSt Kind := regFold [Kind.asteroid, Kind.bullet, Kind.ship]

/-- Claim C8 (code bug): constructing an entity of an unregistered kind does
fail, but with AttributeError — the guard of `Model.collision_type` reads the
never-assigned instance attribute `_collision_type`, so the intended
unregistered-kind RuntimeError is unreachable.  After registration,
construction succeeds and the shape carries the kind's tag (Spaceship is the
third class registered by `main`, tag 3). -/
theorem C8_code_bug_eval :
    constructModel (regEmpty : RegSt Kind) Kind.ship = Except.error Err.attributeError
    ∧ constructModel (regEmpty : RegSt Kind) Kind.ship ≠ Except.error Err.runtimeError
    ∧ constructModel regMain Kind.ship = Except.ok { kind := Kind.ship, shapeColl := 3 }
    ∧ constructModel regMain Kind.asteroid = Except.ok { kind := Kind.asteroid, shapeColl := 1 }
    ∧ constructModel regMain Kind.bullet = Except.ok { kind := Kind.bullet, shapeColl := 2 } := by
  refine ⟨rfl, ?_, rfl, rfl, rfl⟩
  intro h
  exact absurd (Except.error.inj h) (by decide)

/-
World state (`World.__init__`, `World.add`, `World.remove`,
`World.get_by_shape`, the `done` property, `View`).

Every pymunk body and shape is created by exactly one model, so both handles
are identified with the entity's id.  The pymunk space tracks which bodies
and shapes it holds; `Space.add`/`Space.remove` process the body first and
then the shape, failing (pymunk raises on an object that is already present /
absent) before mutating on the first offending object — so a failure on the
body leaves the space untouched, while a failure on the shape keeps the body
mutation, exactly like the exception semantics of the Python code.
-/

/-- A live entity: its id (Python object identity, also the body and shape
handle) and its model class. -/
structure Entity where
  eid : Nat
  kind : Kind
deriving DecidableEq

/-- The two controllers of the game. -/
inductive Ctrl where
  | player
  | spammer
deriving DecidableEq

/-- The pymunk space: which entity's body and which entity's shape it holds. -/
structure SpaceSt where
  bodies : List Nat
  shapes : List Nat
deriving DecidableEq

/-- The `View`: sprites registered per model (`_model2sprite` keys) and the
labels created so far, each label recording the integer second count baked
into its text. -/
structure ViewSt where
  sprites : List Nat
  labels : List Int
deriving DecidableEq

/-- Combined state of the `World`, its `View`, and the controller-owned
containers the claims touch (`AsteroidSpammer._asteroids`;
`Player._bullets` is initialised but never written by the code, so it is
omitted). -/
structure GameSt where
  startTime : Rat
  space : SpaceSt
  models : List (Entity × Ctrl)
  shapes : List (Nat × (Entity × Ctrl))
  left : Rat
  right : Rat
  bottom : Rat
  top : Rat
  isDone : Bool
  view : ViewSt
  posOf : List (Nat × (Rat × Rat))
  spammerAsteroids : List Nat
deriving DecidableEq

/-- Embeds `pymunk.Space.add(body, shape)`. -/
def spaceAdd (eid : Nat) (s : SpaceSt) : SpaceSt × Option Err :=
  if eid ∈ s.bodies then (s, some Err.assertionError)
  else if eid ∈ s.shapes then
    ({ s with bodies := s.bodies ++ [eid] }, some Err.assertionError)
  else ({ bodies := s.bodies ++ [eid], shapes := s.shapes ++ [eid] }, none)

/-- Embeds `pymunk.Space.remove(body, shape)`. -/
def spaceRemove (eid : Nat) (s : SpaceSt) : SpaceSt × Option Err :=
  if eid ∈ s.bodies then
    if eid ∈ s.shapes then
      ({ bodies := lremove s.bodies eid, shapes := lremove s.shapes eid }, none)
    else ({ s with bodies := lremove s.bodies eid }, some Err.assertionError)
  else (s, some Err.assertionError)

/-- Embeds `World.add(model, controller)`: space insertion, then append to
`_models`, then `_shapes[model.shape] = (model, controller)`. -/
def worldAdd (e : Entity) (c : Ctrl) (g : GameSt) : GameSt × Option Err :=
  match spaceAdd e.eid g.space with
  | (sp, some er) => ({ g with space := sp }, some er)
  | (sp, none) =>
    ({ g with space := sp,
              models := g.models ++ [(e, c)],
              shapes := ainsert g.shapes e.eid (e, c) }, none)

/-- Embeds `World.remove(model, controller)`: space removal, then
`_models.remove((model, controller))` (ValueError if the pair is absent),
then `del _shapes[model.shape]` (KeyError if the key is absent). -/
def worldRemove (e : Entity) (c : Ctrl) (g : GameSt) : GameSt × Option Err :=
  match spaceRemove e.eid g.space with
  | (sp, some er) => ({ g with space := sp }, some er)
  | (sp, none) =>
    if (e, c) ∈ g.models then
      if (alookup g.shapes e.eid).isSome then
        ({ g with space := sp,
                  models := lremove g.models (e, c),
                  shapes := adel g.shapes e.eid }, none)
      else ({ g with space := sp, models := lremove g.models (e, c) },
            some Err.keyError)
    else ({ g with space := sp }, some Err.valueError)

/-- Embeds `World.get_by_shape(shape)`: `self._shapes[shape]`, KeyError on a miss. -/
def getByShape (sid : Nat) (g : GameSt) : Except Err (Entity × Ctrl) :=
  match alookup g.shapes sid with
  | some p => Except.ok p
  | none => Except.error Err.keyError

theorem spaceAdd_fresh (eid : Nat) (s : SpaceSt)
    (hb : eid ∉ s.bodies) (hs : eid ∉ s.shapes) :
    spaceAdd eid s = ({ bodies := s.bodies ++ [eid], shapes := s.shapes ++ [eid] }, none) := by
  unfold spaceAdd
  rw [if_neg hb, if_neg hs]

theorem spaceAdd_dup (eid : Nat) (s : SpaceSt) (hb : eid ∈ s.bodies) :
    spaceAdd eid s = (s, some Err.assertionError) := by
  unfold spaceAdd
  rw [if_pos hb]

theorem spaceRemove_mem (eid : Nat) (s : SpaceSt)
    (hb : eid ∈ s.bodies) (hs : eid ∈ s.shapes) :
    spaceRemove eid s
      = ({ bodies := lremove s.bodies eid, shapes := lremove s.shapes eid }, none) := by
  unfold spaceRemove
  rw [if_pos hb, if_pos hs]

theorem spaceRemove_absent (eid : Nat) (s : SpaceSt) (hb : eid ∉ s.bodies) :
    spaceRemove eid s = (s, some Err.assertionError) := by
  unfold spaceRemove
  rw [if_neg hb]

theorem worldAdd_fresh (e : Entity) (c : Ctrl) (g : GameSt)
    (hb : e.eid ∉ g.space.bodies) (hs : e.eid ∉ g.space.shapes) :
    worldAdd e c g =
      ({ g with space := { bodies := g.space.bodies ++ [e.eid],
                           shapes := g.space.shapes ++ [e.eid] },
                models := g.models ++ [(e, c)],
                shapes := ainsert g.shapes e.eid (e, c) }, none) := by
  unfold worldAdd
  rw [spaceAdd_fresh e.eid g.space hb hs]

theorem worldAdd_dup (e : Entity) (c : Ctrl) (g : GameSt)
    (hb : e.eid ∈ g.space.bodies) :
    worldAdd e c g = (g, some Err.assertionError) := by
  unfold worldAdd
  rw [spaceAdd_dup e.eid g.space hb]

theorem worldRemove_success (e : Entity) (c : Ctrl) (g : GameSt)
    (hb : e.eid ∈ g.space.bodies) (hs : e.eid ∈ g.space.shapes)
    (hm : (e, c) ∈ g.models) (hl : (alookup g.shapes e.eid).isSome) :
    worldRemove e c g =
      ({ g with space := { bodies := lremove g.space.bodies e.eid,
                           shapes := lremove g.space.shapes e.eid },
                models := lremove g.models (e, c),
                shapes := adel g.shapes e.eid }, none) := by
  unfold worldRemove
  rw [spaceRemove_mem e.eid g.space hb hs]
  simp only [if_pos hm, hl, if_true]

theorem worldRemove_absent (e : Entity) (c : Ctrl) (g : GameSt)
    (hb : e.eid ∉ g.space.bodies) :
    worldRemove e c g = (g, some Err.assertionError) := by
  unfold worldRemove
  rw [spaceRemove_absent e.eid g.space hb]

/-- Claim C3: immediately after `World.add(E, C)` the lookup
`get_by_shape(E.shape)` returns exactly `(E, C)`; after a subsequent
`World.remove(E, C)` the lookup fails with the NotFound error (KeyError).
Stated for an entity whose handles are not yet in the space (so the add is
the normal, successful one) over a shape index with unique keys. -/
theorem C3_thm (g : GameSt) (e : Entity) (c : Ctrl)
    (hb : e.eid ∉ g.space.bodies) (hs : e.eid ∉ g.space.shapes)
    (hnk : (g.shapes.map Prod.fst).Nodup) :
    (worldAdd e c g).2 = none
    ∧ getByShape e.eid (worldAdd e c g).1 = Except.ok (e, c)
    ∧ (worldRemove e c (worldAdd e c g).1).2 = none
    ∧ getByShape e.eid (worldRemove e c (worldAdd e c g).1).1
        = Except.error Err.keyError := by
  rw [worldAdd_fresh e c g hb hs]
  have hmem : e.eid ∈ g.space.bodies ++ [e.eid] :=
    List.mem_append_right _ (List.mem_singleton.mpr rfl)
  have hmem2 : e.eid ∈ g.space.shapes ++ [e.eid] :=
    List.mem_append_right _ (List.mem_singleton.mpr rfl)
  have hmm : (e, c) ∈ g.models ++ [(e, c)] :=
    List.mem_append_right _ (List.mem_singleton.mpr rfl)
  have hlk : (alookup (ainsert g.shapes e.eid (e, c)) e.eid).isSome := by
    rw [alookup_ainsert_self]
    rfl
  refine ⟨rfl, ?_, ?_, ?_⟩
  · unfold getByShape
    rw [alookup_ainsert_self]
  · rw [worldRemove_success e c _ hmem hmem2 hmm hlk]
  · rw [worldRemove_success e c _ hmem hmem2 hmm hlk]
    unfold getByShape
    rw [alookup_adel_ainsert _ _ _ hnk]

/-- A concrete world: player ship (id 1) live and coupled between both
indices and the space; used by several witnesses. -/
def shipEnt : Entity := { eid := 1, kind := Kind.ship }

/-- A live-one-entity world used by the witnesses: ship id 1 in the space,
in `_models`, in `_shapes`, with a sprite and a position at the centre. -/
def gOne : GameSt :=
  { startTime := 0,
    space := { bodies := [1], shapes := [1] },
    models := [(shipEnt, Ctrl.player)],
    shapes := [(1, (shipEnt, Ctrl.player))],
    left := -100, right := 100, bottom := -100, top := 100,
    isDone := false,
    view := { sprites := [1], labels := [] },
    posOf := [(1, (0, 0))],
    spammerAsteroids := [] }

/-- A fresh asteroid entity (id 2), not yet added anywhere. -/
def asterEnt : Entity := { eid := 2, kind := Kind.asteroid }

/-- Witness for C3: adding the fresh asteroid to `gOne` and removing it again
behaves as claimed. -/
theorem C3_witness :
    ((2 : Nat) ∉ gOne.space.bodies ∧ (2 : Nat) ∉ gOne.space.shapes
      ∧ (gOne.shapes.map Prod.fst).Nodup)
    ∧ ((worldAdd asterEnt Ctrl.spammer gOne).2 = none
      ∧ getByShape 2 (worldAdd asterEnt Ctrl.spammer gOne).1
          = Except.ok (asterEnt, Ctrl.spammer)
      ∧ (worldRemove asterEnt Ctrl.spammer (worldAdd asterEnt Ctrl.spammer gOne).1).2 = none
      ∧ getByShape 2
          (worldRemove asterEnt Ctrl.spammer (worldAdd asterEnt Ctrl.spammer gOne).1).1
          = Except.error Err.keyError) :=
  ⟨⟨by decide, by decide, by decide⟩,
    C3_thm gOne asterEnt Ctrl.spammer (by decide) (by decide) (by decide)⟩

theorem spaceRemove_bodyOnly (eid : Nat) (s : SpaceSt)
    (hb : eid ∈ s.bodies) (hs : eid ∉ s.shapes) :
    spaceRemove eid s
      = ({ s with bodies := lremove s.bodies eid }, some Err.assertionError) := by
  unfold spaceRemove
  rw [if_pos hb, if_neg hs]

theorem worldRemove_err_bodyOnly (e : Entity) (c : Ctrl) (g : GameSt)
    (hb : e.eid ∈ g.space.bodies) (hs : e.eid ∉ g.space.shapes) :
    (worldRemove e c g).2 = some Err.assertionError := by
  unfold worldRemove
  rw [spaceRemove_bodyOnly e.eid g.space hb hs]

theorem worldRemove_err_models (e : Entity) (c : Ctrl) (g : GameSt)
    (hb : e.eid ∈ g.space.bodies) (hs : e.eid ∈ g.space.shapes)
    (hm : (e, c) ∉ g.models) :
    (worldRemove e c g).2 = some Err.valueError := by
  unfold worldRemove
  rw [spaceRemove_mem e.eid g.space hb hs]
  simp only [if_neg hm]

theorem worldRemove_err_key (e : Entity) (c : Ctrl) (g : GameSt)
    (hb : e.eid ∈ g.space.bodies) (hs : e.eid ∈ g.space.shapes)
    (hm : (e, c) ∈ g.models) (hl : alookup g.shapes e.eid = none) :
    (worldRemove e c g).2 = some Err.keyError := by
  unfold worldRemove
  rw [spaceRemove_mem e.eid g.space hb hs]
  simp only [if_pos hm, hl, Option.isSome_none, Bool.false_eq_true, if_false]

/-- Claim C4: removing the same (entity, controller) pair twice — the
double-callback quirk — fails on the second call (the spec's NotFound,
surfacing here from the body's absence in the pymunk space) and the failing
second call returns with the whole world state exactly as the first call left
it, so every other live entity's index entries are untouched. -/
theorem C4_thm (g : GameSt) (e : Entity) (c : Ctrl)
    (hnd : g.space.bodies.Nodup)
    (h1 : (worldRemove e c g).2 = none) :
    worldRemove e c (worldRemove e c g).1
      = ((worldRemove e c g).1, some Err.assertionError) := by
  by_cases hb : e.eid ∈ g.space.bodies
  · by_cases hs : e.eid ∈ g.space.shapes
    · by_cases hm : (e, c) ∈ g.models
      · cases hlk : alookup g.shapes e.eid with
        | none =>
          rw [worldRemove_err_key e c g hb hs hm hlk] at h1
          simp at h1
        | some p =>
          have hl : (alookup g.shapes e.eid).isSome := by rw [hlk]; rfl
          rw [worldRemove_success e c g hb hs hm hl]
          exact worldRemove_absent e c _ (lremove_not_mem _ _ hnd)
      · rw [worldRemove_err_models e c g hb hs hm] at h1
        simp at h1
    · rw [worldRemove_err_bodyOnly e c g hb hs] at h1
      simp at h1
  · rw [worldRemove_absent e c g hb] at h1
    simp at h1

/-- Witness for C4: the ship of `gOne` removed twice. -/
theorem C4_witness :
    (gOne.space.bodies.Nodup ∧ (worldRemove shipEnt Ctrl.player gOne).2 = none)
    ∧ worldRemove shipEnt Ctrl.player (worldRemove shipEnt Ctrl.player gOne).1
        = ((worldRemove shipEnt Ctrl.player gOne).1, some Err.assertionError) :=
  ⟨⟨by decide, by decide⟩,
    C4_thm gOne shipEnt Ctrl.player (by decide) (by decide)⟩

/-- Claim C9: `World.add` on an entity whose shape handle is already present
in the registry (so, by the registry/space coupling, whose body is already in
the space) fails — pymunk's duplicate assertion, the spec's DuplicateEntity —
leaving the state entirely unchanged; adding an entity with fresh handles
inserts it into both indices and into the physics space. -/
theorem C9_thm (g : GameSt) (e e2 : Entity) (c c2 : Ctrl)
    (hdup : (alookup g.shapes e.eid).isSome)
    (hb : e.eid ∈ g.space.bodies)
    (hb2 : e2.eid ∉ g.space.bodies) (hs2 : e2.eid ∉ g.space.shapes) :
    worldAdd e c g = (g, some Err.assertionError)
    ∧ worldAdd e2 c2 g =
        ({ g with space := { bodies := g.space.bodies ++ [e2.eid],
                             shapes := g.space.shapes ++ [e2.eid] },
                  models := g.models ++ [(e2, c2)],
                  shapes := ainsert g.shapes e2.eid (e2, c2) }, none) :=
  ⟨worldAdd_dup e c g hb, worldAdd_fresh e2 c2 g hb2 hs2⟩

/-- Witness for C9: re-adding the live ship of `gOne` fails and changes
nothing; adding the fresh asteroid succeeds. -/
theorem C9_witness :
    ((alookup gOne.shapes 1).isSome ∧ (1 : Nat) ∈ gOne.space.bodies
      ∧ (2 : Nat) ∉ gOne.space.bodies ∧ (2 : Nat) ∉ gOne.space.shapes)
    ∧ (worldAdd shipEnt Ctrl.player gOne = (gOne, some Err.assertionError)
      ∧ worldAdd asterEnt Ctrl.spammer gOne =
          ({ gOne with
              space := { bodies := gOne.space.bodies ++ [2],
                         shapes := gOne.space.shapes ++ [2] },
              models := gOne.models ++ [(asterEnt, Ctrl.spammer)],
              shapes := ainsert gOne.shapes 2 (asterEnt, Ctrl.spammer) }, none)) :=
  ⟨⟨by decide, by decide, by decide, by decide⟩,
    C9_thm gOne shipEnt asterEnt Ctrl.player Ctrl.spammer (by decide) (by decide)
      (by decide) (by decide)⟩

/-
The `done` property, bounds culling, and `World.step`
(`World.done`, `World._delete_out_of_bounds`, `World.step`), plus the two
controllers' `delete` (`Player.delete`, `AsteroidSpammer.delete`) and the
`View` operations they call.

`time.time()` is external: each operation that reads the wall clock takes the
current reading as an explicit rational argument.  The physics sub-step
`self._space.step(dt)` is pymunk's integrator, an external collaborator: it
is passed in as an arbitrary update of the body-position table.
-/

/-- Python `int(x)` on the elapsed-seconds float: truncation toward zero. -/
def pyInt (q : Rat) : Int := q.num.tdiv q.den

/-- The `World.done` setter, at wall-clock reading `t`: an early return when
already done; otherwise it creates the survival-time label and then stores
the assigned value — whatever that value is. -/
def setDone (v : Bool) (t : Rat) (g : GameSt) : GameSt :=
  if g.isDone then g
  else
    { g with isDone := v,
             view := { g.view with
                        labels := g.view.labels ++ [pyInt (t - g.startTime)] } }

/-- Embeds `View.remove_model(model)`: deletes the sprite and drops the
`_model2sprite` entry, KeyError when the model has no sprite. -/
def viewRemoveModel (v : ViewSt) (eid : Nat) : ViewSt × Option Err :=
  if eid ∈ v.sprites then ({ v with sprites := lremove v.sprites eid }, none)
  else (v, some Err.keyError)

/-- Embeds `Player.delete(model)`: only acts when the model is (exactly) a `Bullet`;
then sprite removal first, then `World.remove(model, self)`. -/
def playerDelete (e : Entity) (g : GameSt) : GameSt × Option Err :=
  if e.kind = Kind.bullet then
    match viewRemoveModel g.view e.eid with
    | (v, some er) => ({ g with view := v }, some er)
    | (v, none) => worldRemove e Ctrl.player { g with view := v }
  else (g, none)

/-- Embeds `AsteroidSpammer.delete(model)`: unconditionally `World.remove(model,
self)`, then `self._asteroids.remove(model)` (ValueError when absent), then
sprite removal. -/
def spammerDelete (e : Entity) (g : GameSt) : GameSt × Option Err :=
  match worldRemove e Ctrl.spammer g with
  | (g1, some er) => (g1, some er)
  | (g1, none) =>
    if e.eid ∈ g1.spammerAsteroids then
      match viewRemoveModel g1.view e.eid with
      | (v, er) =>
        ({ g1 with spammerAsteroids := lremove g1.spammerAsteroids e.eid,
                   view := v }, er)
    else (g1, some Err.valueError)

/-- Dispatch `controller.delete(model)` on the controller of a registry
pair. -/
def ctrlDelete : Ctrl → Entity → GameSt → GameSt × Option Err
  | Ctrl.player, e, g => playerDelete e g
  | Ctrl.spammer, e, g => spammerDelete e g

/-- Reads `model.body.position` of the entity with id `eid` (bodies always exist
for live entities; a missing id defaults to the origin). -/
def posOfEid (g : GameSt) (eid : Nat) : Rat × Rat :=
  (alookup g.posOf eid).getD (0, 0)

/-- The out-of-bounds test of `World._delete_out_of_bounds`. -/
def isOutOfBounds (g : GameSt) (p : Rat × Rat) : Bool :=
  p.1 < g.left || p.1 > g.right || p.2 < g.bottom || p.2 > g.top

/-- The `for model, controller in self._models` loop of
`World._delete_out_of_bounds`, embedded the way CPython runs it: the list
iterator keeps a plain index into the *live* list, so a `delete` that removes
the current element shifts the remaining elements left and the next index
skips one.  `t` is the wall clock (read if the ship exits); the fuel is an
upper bound on the remaining iterations (the list never grows during the
loop) and `deleteOutOfBounds` supplies enough of it.  An exception from a
`delete` propagates out of the loop. -/
def cullFrom (t : Rat) : Nat → Nat → GameSt → GameSt × Option Err
  | _, 0, g => (g, none)
  | i, fuel + 1, g =>
    match g.models[i]? with
    | none => (g, none)
    | some (e, c) =>
      if isOutOfBounds g (posOfEid g e.eid) then
        if e.kind = Kind.ship then cullFrom t (i + 1) fuel (setDone true t g)
        else
          match ctrlDelete c e g with
          | (g1, some er) => (g1, some er)
          | (g1, none) => cullFrom t (i + 1) fuel g1
      else cullFrom t (i + 1) fuel g

/-- Embeds `World._delete_out_of_bounds`. -/
def deleteOutOfBounds (t : Rat) (g : GameSt) : GameSt × Option Err :=
  cullFrom t 0 g.models.length g

/-- Embeds `World.step(dt)` at wall-clock reading `t`: an early return when done;
otherwise the pymunk sub-step `phys` updates body positions, then the
out-of-bounds cull runs. -/
def worldStep (phys : List (Nat × (Rat × Rat)) → List (Nat × (Rat × Rat)))
    (t : Rat) (g : GameSt) : GameSt × Option Err :=
  if g.isDone then (g, none)
  else deleteOutOfBounds t { g with posOf := phys g.posOf }

/-- The operations that touch a `World` after construction, for stating the
one-shot invariants: a `done` assignment, a `World.step`, a `World.add` or
`World.remove`, or a controller `delete`. -/
inductive Op where
  | assignDone (v : Bool) (t : Rat)
  | stepOp (phys : List (Nat × (Rat × Rat)) → List (Nat × (Rat × Rat))) (t : Rat)
  | addOp (e : Entity) (c : Ctrl)
  | removeOp (e : Entity) (c : Ctrl)
  | playerDeleteOp (e : Entity)
  | spammerDeleteOp (e : Entity)

/-- Run one operation. -/
def applyOp : Op → GameSt → GameSt × Option Err
  | Op.assignDone v t, g => (setDone v t g, none)
  | Op.stepOp phys t, g => worldStep phys t g
  | Op.addOp e c, g => worldAdd e c g
  | Op.removeOp e c, g => worldRemove e c g
  | Op.playerDeleteOp e, g => playerDelete e g
  | Op.spammerDeleteOp e, g => spammerDelete e g

/-- Run a list of operations; a raised exception propagates, ending the run
with the state as mutated so far. -/
def runOps : List Op → GameSt → GameSt
  | [], g => g
  | op :: ops, g =>
    match applyOp op g with
    | (g1, none) => runOps ops g1
    | (g1, some _) => g1

theorem setDone_done (v : Bool) (t : Rat) (g : GameSt) (h : g.isDone = true) :
    setDone v t g = g := by
  unfold setDone
  rw [if_pos h]

theorem setDone_fresh (v : Bool) (t : Rat) (g : GameSt) (h : g.isDone = false) :
    setDone v t g =
      { g with isDone := v,
               view := { g.view with
                          labels := g.view.labels ++ [pyInt (t - g.startTime)] } } := by
  unfold setDone
  rw [if_neg (by rw [h]; exact Bool.false_ne_true)]

theorem worldStep_done (phys : List (Nat × (Rat × Rat)) → List (Nat × (Rat × Rat)))
    (t : Rat) (g : GameSt) (h : g.isDone = true) : worldStep phys t g = (g, none) := by
  unfold worldStep
  rw [if_pos h]

theorem viewRemoveModel_labels (v : ViewSt) (eid : Nat) :
    (viewRemoveModel v eid).1.labels = v.labels := by
  unfold viewRemoveModel
  split
  · rfl
  · rfl

theorem worldAdd_frame (e : Entity) (c : Ctrl) (g : GameSt) :
    (worldAdd e c g).1.isDone = g.isDone ∧ (worldAdd e c g).1.view = g.view := by
  unfold worldAdd
  split
  · exact ⟨rfl, rfl⟩
  · exact ⟨rfl, rfl⟩

theorem worldRemove_frame (e : Entity) (c : Ctrl) (g : GameSt) :
    (worldRemove e c g).1.isDone = g.isDone
    ∧ (worldRemove e c g).1.view = g.view
    ∧ (worldRemove e c g).1.spammerAsteroids = g.spammerAsteroids := by
  unfold worldRemove
  split
  · exact ⟨rfl, rfl, rfl⟩
  · split
    · split
      · exact ⟨rfl, rfl, rfl⟩
      · exact ⟨rfl, rfl, rfl⟩
    · exact ⟨rfl, rfl, rfl⟩

theorem playerDelete_frame (e : Entity) (g : GameSt) :
    (playerDelete e g).1.isDone = g.isDone
    ∧ (playerDelete e g).1.view.labels = g.view.labels := by
  unfold playerDelete
  split
  · split
    · rename_i v er heq
      have hv := viewRemoveModel_labels g.view e.eid
      rw [heq] at hv
      exact ⟨rfl, hv⟩
    · rename_i v heq
      have hv := viewRemoveModel_labels g.view e.eid
      rw [heq] at hv
      have hf := worldRemove_frame e Ctrl.player { g with view := v }
      exact ⟨hf.1, (congrArg ViewSt.labels hf.2.1).trans hv⟩
  · exact ⟨rfl, rfl⟩

theorem spammerDelete_frame (e : Entity) (g : GameSt) :
    (spammerDelete e g).1.isDone = g.isDone
    ∧ (spammerDelete e g).1.view.labels = g.view.labels := by
  unfold spammerDelete
  split
  · rename_i g1 er heq
    have hf := worldRemove_frame e Ctrl.spammer g
    rw [heq] at hf
    exact ⟨hf.1, congrArg ViewSt.labels hf.2.1⟩
  · rename_i g1 heq
    have hf := worldRemove_frame e Ctrl.spammer g
    rw [heq] at hf
    split
    · split
      rename_i v er2 heq2
      have hv := viewRemoveModel_labels g1.view e.eid
      rw [heq2] at hv
      exact ⟨hf.1, hv.trans (congrArg ViewSt.labels hf.2.1)⟩
    · exact ⟨hf.1, congrArg ViewSt.labels hf.2.1⟩

theorem applyOp_done (op : Op) (g : GameSt) (h : g.isDone = true) :
    (applyOp op g).1.isDone = true
    ∧ (applyOp op g).1.view.labels = g.view.labels := by
  cases op with
  | assignDone v t =>
    show (setDone v t g).isDone = true ∧ (setDone v t g).view.labels = g.view.labels
    rw [setDone_done v t g h]
    exact ⟨h, rfl⟩
  | stepOp phys t =>
    show (worldStep phys t g).1.isDone = true
      ∧ (worldStep phys t g).1.view.labels = g.view.labels
    rw [worldStep_done phys t g h]
    exact ⟨h, rfl⟩
  | addOp e c =>
    show (worldAdd e c g).1.isDone = true
      ∧ (worldAdd e c g).1.view.labels = g.view.labels
    have hf := worldAdd_frame e c g
    exact ⟨hf.1.trans h, congrArg ViewSt.labels hf.2⟩
  | removeOp e c =>
    show (worldRemove e c g).1.isDone = true
      ∧ (worldRemove e c g).1.view.labels = g.view.labels
    have hf := worldRemove_frame e c g
    exact ⟨hf.1.trans h, congrArg ViewSt.labels hf.2.1⟩
  | playerDeleteOp e =>
    show (playerDelete e g).1.isDone = true
      ∧ (playerDelete e g).1.view.labels = g.view.labels
    exact ⟨(playerDelete_frame e g).1.trans h, (playerDelete_frame e g).2⟩
  | spammerDeleteOp e =>
    show (spammerDelete e g).1.isDone = true
      ∧ (spammerDelete e g).1.view.labels = g.view.labels
    exact ⟨(spammerDelete_frame e g).1.trans h, (spammerDelete_frame e g).2⟩

theorem runOps_done (ops : List Op) :
    ∀ g : GameSt, g.isDone = true →
      (runOps ops g).isDone = true ∧ (runOps ops g).view.labels = g.view.labels := by
  induction ops with
  | nil => exact fun g h => ⟨h, rfl⟩
  | cons op ops ih =>
    intro g h
    have hop := applyOp_done op g h
    unfold runOps
    split
    · rename_i g1 heq
      rw [heq] at hop
      have hr := ih g1 hop.1
      exact ⟨hr.1, hr.2.trans hop.2⟩
    · rename_i g1 er heq
      rw [heq] at hop
      exact hop

/-- Claim C6: the termination state is one-shot.  From a not-yet-done world,
assigning `done = True` at wall-clock `t` sets the flag, creates exactly one
survival-time label capturing the elapsed seconds at that instant, and then:
under any subsequent sequence of world operations the flag never reverts and
the label list never changes (the terminal side effect fires exactly once),
and `World.step` is a complete no-op (no physics stepping). -/
theorem C6_thm (g : GameSt) (t u : Rat) (ops : List Op)
    (phys : List (Nat × (Rat × Rat)) → List (Nat × (Rat × Rat)))
    (h : g.isDone = false) :
    (setDone true t g).isDone = true
    ∧ (setDone true t g).view.labels = g.view.labels ++ [pyInt (t - g.startTime)]
    ∧ (runOps ops (setDone true t g)).isDone = true
    ∧ (runOps ops (setDone true t g)).view.labels = (setDone true t g).view.labels
    ∧ worldStep phys u (setDone true t g) = (setDone true t g, none) := by
  have h1 : (setDone true t g).isDone = true := by
    rw [setDone_fresh true t g h]
  have h2 := runOps_done ops (setDone true t g) h1
  refine ⟨h1, ?_, h2.1, h2.2, worldStep_done phys u _ h1⟩
  rw [setDone_fresh true t g h]

/-- Witness for C6 on `gOne`, with a later `done = False` attempt, a step, an
add and a second `done = True` attempt among the subsequent operations. -/
theorem C6_witness :
    gOne.isDone = false
    ∧ ((setDone true 5 gOne).isDone = true
      ∧ (setDone true 5 gOne).view.labels
          = gOne.view.labels ++ [pyInt ((5 : Rat) - gOne.startTime)]
      ∧ (runOps [Op.assignDone false 6, Op.stepOp id 7,
                 Op.addOp asterEnt Ctrl.spammer, Op.assignDone true 9]
                (setDone true 5 gOne)).isDone = true
      ∧ (runOps [Op.assignDone false 6, Op.stepOp id 7,
                 Op.addOp asterEnt Ctrl.spammer, Op.assignDone true 9]
                (setDone true 5 gOne)).view.labels = (setDone true 5 gOne).view.labels
      ∧ worldStep id 8 (setDone true 5 gOne) = (setDone true 5 gOne, none)) :=
  ⟨by decide,
    C6_thm gOne 5 8
      [Op.assignDone false 6, Op.stepOp id 7,
       Op.addOp asterEnt Ctrl.spammer, Op.assignDone true 9] id (by decide)⟩

/-- Claim C10: assigning `False` to `World.done` while the game is not done
still runs the terminal side effect — the setter's guard only checks the old
value, so the survival-time label is created — while `done` stays false. -/
theorem C10_thm (g : GameSt) (t : Rat) (h : g.isDone = false) :
    (setDone false t g).isDone = false
    ∧ (setDone false t g).view.labels
        = g.view.labels ++ [pyInt (t - g.startTime)] := by
  rw [setDone_fresh false t g h]
  exact ⟨rfl, rfl⟩

/-- Witness for C10 on `gOne` at wall-clock reading 3. -/
theorem C10_witness :
    gOne.isDone = false
    ∧ ((setDone false 3 gOne).isDone = false
      ∧ (setDone false 3 gOne).view.labels
          = gOne.view.labels ++ [pyInt ((3 : Rat) - gOne.startTime)]) :=
  ⟨by decide, C10_thm gOne 3 (by decide)⟩

/-- Claim C7 counterexample: `AsteroidSpammer.delete` called on the ship —
an entity the spammer does not own (it is the player's, and not in
`_asteroids`) — is not a no-op: it raises (ValueError from
`_asteroids.remove` after `World.remove` partially ran) and it mutates the
physics space, removing the ship's body and shape. -/
theorem C7_counterexample :
    shipEnt.eid ∉ gOne.spammerAsteroids
    ∧ (spammerDelete shipEnt gOne).2 ≠ none
    ∧ (spammerDelete shipEnt gOne).1.space ≠ gOne.space := by
  refine ⟨by decide, by decide, by decide⟩

/-- Claim C7 as amended: `Player.delete(entity)` is a no-op — state
untouched, nothing raised — exactly when the entity is not a `Bullet` (the
guard is a type test, not an ownership test); `AsteroidSpammer.delete`
performs no ownership check at all, and on any entity not in its
`_asteroids` list it raises an error instead of being a no-op. -/
theorem C7_amended_thm (e : Entity) (g : GameSt) (e2 : Entity) (g2 : GameSt)
    (hk : e.kind ≠ Kind.bullet) (ho : e2.eid ∉ g2.spammerAsteroids) :
    playerDelete e g = (g, none)
    ∧ (spammerDelete e2 g2).2 ≠ none := by
  constructor
  · unfold playerDelete
    rw [if_neg hk]
  · unfold spammerDelete
    split
    · rename_i g1 er heq
      simp
    · rename_i g1 heq
      have hf := worldRemove_frame e2 Ctrl.spammer g2
      rw [heq] at hf
      rw [if_neg (by rw [show g1.spammerAsteroids = g2.spammerAsteroids from hf.2.2]; exact ho)]
      simp

/-- Witness for C7 as amended: `Player.delete` on the asteroid is a no-op;
`AsteroidSpammer.delete` on the ship raises. -/
theorem C7_amended_witness :
    (asterEnt.kind ≠ Kind.bullet ∧ shipEnt.eid ∉ gOne.spammerAsteroids)
    ∧ (playerDelete asterEnt gOne = (gOne, none)
      ∧ (spammerDelete shipEnt gOne).2 ≠ none) :=
  ⟨⟨by decide, by decide⟩,
    C7_amended_thm asterEnt gOne shipEnt gOne (by decide) (by decide)⟩

/-- Two asteroids far outside the bounds, adjacent in `World._models`: the
state exercising the cull loop's list-mutation-during-iteration behavior. -/
def asterA : Entity := { eid := 10, kind := Kind.asteroid }

/-- Second out-of-bounds asteroid, added right after `asterA`. -/
def asterB : Entity := { eid := 11, kind := Kind.asteroid }

/-- World for the C5 scenario: both asteroids live, coupled in all indices,
both at position (200, 50) with bounds `[0,100] x [0,100]`. -/
def gC5 : GameSt :=
  { startTime := 0,
    space := { bodies := [10, 11], shapes := [10, 11] },
    models := [(asterA, Ctrl.spammer), (asterB, Ctrl.spammer)],
    shapes := [(10, (asterA, Ctrl.spammer)), (11, (asterB, Ctrl.spammer))],
    left := 0, right := 100, bottom := 0, top := 100,
    isDone := false,
    view := { sprites := [10, 11], labels := [] },
    posOf := [(10, (200, 50)), (11, (200, 50))],
    spammerAsteroids := [10, 11] }

/-- Claim C5 (code bug): both asteroids of `gC5` are out of bounds, yet one
`World.step` removes only the first.  `_delete_out_of_bounds` iterates the
live `_models` list while `controller.delete` removes from it, so the list
iterator skips the element after each removal: the second out-of-bounds
asteroid survives the step, against the claim that every out-of-bounds
non-anchor entity is removed on that step. -/
theorem C5_code_bug_eval :
    isOutOfBounds gC5 (posOfEid gC5 asterA.eid) = true
    ∧ isOutOfBounds gC5 (posOfEid gC5 asterB.eid) = true
    ∧ (worldStep id 1 gC5).2 = none
    ∧ (worldStep id 1 gC5).1.models = [(asterB, Ctrl.spammer)]
    ∧ (asterB, Ctrl.spammer) ∈ (worldStep id 1 gC5).1.models := by
  refine ⟨by decide, by decide, by decide, by decide, by decide⟩

/-
Fire-rate limiting (`Player._create_bullet`, `Player.step`).

Only the cooldown accumulator decides whether a bullet is spawned, so the
embedding tracks `Player._tsb` and the number of spawns; `bpsT` is
`Player._bps = 1 / bullets_per_second`, the time between bullets.
-/

/-- Cooldown state of `Player`: `_tsb` (time since last bullet) and the
number of bullet spawns so far. -/
structure FireSt where
  tsb : Rat
  spawns : Nat
deriving DecidableEq

/-- One `Player._create_bullet(dt)` call with the fire intent held: add `dt`
to `_tsb`; below the threshold, return; otherwise reset `_tsb` to zero (not
subtracting the threshold) and spawn a bullet. -/
def createBullet (bpsT : Rat) (s : FireSt) (dt : Rat) : FireSt :=
  if s.tsb + dt < bpsT then { s with tsb := s.tsb + dt }
  else { tsb := 0, spawns := s.spawns + 1 }

/-- A sequence of `Player.step(dt)` calls with the fire intent held
continuously: each step runs `_create_bullet(dt)` once. -/
def fireRun (bpsT : Rat) (s : FireSt) (dts : List Rat) : FireSt :=
  dts.foldl (createBullet bpsT) s

/-- The cooldown state at construction: `_tsb = 0`, no bullet yet. -/
def fire0 : FireSt := { tsb := 0, spawns := 0 }

/-- Claim C1 counterexample: with `bulletsPerSecond = 4` (threshold 1/4) and
fire held, the single-step sequence `dt = 1.0` sums to 1.0 seconds but
spawns exactly one bullet, not four — the reset-to-zero accumulator drops
the excess 0.75 s. -/
theorem C1_counterexample :
    List.sum [(1 : Rat)] = 1
    ∧ (fireRun (1/4) fire0 [(1 : Rat)]).spawns = 1
    ∧ (fireRun (1/4) fire0 [(1 : Rat)]).spawns ≠ 4 := by
  have hrun : fireRun (1/4) fire0 [(1 : Rat)] = { tsb := 0, spawns := 1 } := by
    norm_num [fireRun, createBullet, fire0]
  rw [hrun]
  norm_num

theorem fire_bound (bpsT : Rat) (dts : List Rat) :
    ∀ s : FireSt, 0 ≤ s.tsb → (∀ d ∈ dts, 0 ≤ d) →
      0 ≤ (fireRun bpsT s dts).tsb
      ∧ ((fireRun bpsT s dts).spawns : Rat) * bpsT + (fireRun bpsT s dts).tsb
          ≤ (s.spawns : Rat) * bpsT + s.tsb + dts.sum := by
  induction dts with
  | nil =>
    intro s hs _
    exact ⟨hs, by simp [fireRun]⟩
  | cons d tl ih =>
    intro s hs hd
    have hd0 : 0 ≤ d := hd d (List.mem_cons_self d tl)
    have hdt : ∀ x ∈ tl, 0 ≤ x := fun x hx => hd x (List.mem_cons_of_mem d hx)
    have hstep : fireRun bpsT s (d :: tl) = fireRun bpsT (createBullet bpsT s d) tl := rfl
    rw [hstep, List.sum_cons]
    by_cases hc : s.tsb + d < bpsT
    · have hcb : createBullet bpsT s d = { s with tsb := s.tsb + d } := by
        unfold createBullet
        rw [if_pos hc]
      rw [hcb]
      have hih := ih { s with tsb := s.tsb + d } (add_nonneg hs hd0) hdt
      exact ⟨hih.1, by have := hih.2; dsimp at this ⊢; linarith⟩
    · have hcb : createBullet bpsT s d = { tsb := 0, spawns := s.spawns + 1 } := by
        unfold createBullet
        rw [if_neg hc]
      rw [hcb]
      have hih := ih { tsb := 0, spawns := s.spawns + 1 } (le_refl 0) hdt
      have hcc : bpsT ≤ s.tsb + d := not_lt.mp hc
      refine ⟨hih.1, ?_⟩
      have h2 := hih.2
      dsimp at h2 ⊢
      push_cast at h2 ⊢
      linarith

/-- Claim C1 as amended: with `bulletsPerSecond = 4` and fire held
continuously, a sequence of `step(dt)` calls with nonnegative `dt` summing to
1.0 s spawns at most 4 bullets — exactly 4 for the uniform sequence of four
0.25 s steps — and every spawn resets the accumulator to zero rather than
subtracting the threshold. -/
theorem C1_amended_thm (dts : List Rat) (s : FireSt) (dt : Rat)
    (hpos : ∀ d ∈ dts, 0 ≤ d) (hsum : dts.sum = 1)
    (hsp : (createBullet (1/4) s dt).spawns = s.spawns + 1) :
    (fireRun (1/4) fire0 dts).spawns ≤ 4
    ∧ (fireRun (1/4) fire0 (List.replicate 4 ((1 : Rat)/4))).spawns = 4
    ∧ (createBullet (1/4) s dt).tsb = 0 := by
  refine ⟨?_, ?_, ?_⟩
  · have hb := fire_bound (1/4) dts fire0 (le_refl 0) hpos
    have h0 := hb.1
    have h2 := hb.2
    rw [hsum] at h2
    rw [show ((fire0.spawns : Rat) * (1/4) + fire0.tsb + 1 : Rat) = 1 by
      norm_num [fire0]] at h2
    have h1 : ((fireRun (1/4) fire0 dts).spawns : Rat) ≤ 4 := by linarith
    exact_mod_cast h1
  · norm_num [fireRun, List.replicate, createBullet, fire0]
  · unfold createBullet at hsp ⊢
    by_cases hc : s.tsb + dt < 1/4
    · rw [if_pos hc] at hsp
      simp at hsp
    · rw [if_neg hc]

/-- Witness for C1 as amended: the uniform four-step sequence and a concrete
spawning call of `_create_bullet`. -/
theorem C1_amended_witness :
    ((∀ d ∈ [(1 : Rat)/4, 1/4, 1/4, 1/4], 0 ≤ d)
      ∧ List.sum [(1 : Rat)/4, 1/4, 1/4, 1/4] = 1
      ∧ (createBullet (1/4) fire0 1).spawns = fire0.spawns + 1)
    ∧ ((fireRun (1/4) fire0 [(1 : Rat)/4, 1/4, 1/4, 1/4]).spawns ≤ 4
      ∧ (fireRun (1/4) fire0 (List.replicate 4 ((1 : Rat)/4))).spawns = 4
      ∧ (createBullet (1/4) fire0 1).tsb = 0) :=
  ⟨⟨by norm_num, by norm_num, by norm_num [createBullet, fire0]⟩,
    C1_amended_thm [(1 : Rat)/4, 1/4, 1/4, 1/4] fire0 1 (by norm_num) (by norm_num)
      (by norm_num [createBullet, fire0])⟩
